import Mathlib

/-!
# Reaction Time Game: a shallow embedding of the firmware

The C sources (`main.c`, `GPIO.c`, `SysTick_Delay.c`, `UART.c`) are embedded as
Lean functions over an explicit machine state.  `uint32_t` and `uint8_t`
values are natural numbers reduced modulo `2^32` and `2^8` at every place where
the C arithmetic can wrap.  Interrupt handlers are functions on the machine
state; the foreground code of `Play_Game` is a step function on a program
location, so that handler runs can be interleaved between any two steps.
-/

namespace ReactionTimeGame

/-! ## Machine integers and constants -/

/-- Number of values of a `uint32_t`. -/
def U32 : Nat := 4294967296

/-- Number of values of a `uint8_t`. -/
def U8 : Nat := 256

/-- Subtraction of two `uint32_t` values, as C computes it. -/
def sub32 (a b : Nat) : Nat := (a + U32 - b % U32) % U32

/-- Bitwise complement of a value, converted to `uint32_t` (`~x`). -/
def not32 (x : Nat) : Nat := U32 - 1 - x % U32

-- main.c, lines 33-37
def MAX_ROUNDS : Nat := 10
def MIN_DELAY_MS : Nat := 1000
def MAX_DELAY_MS : Nat := 3000
def TIMEOUT_MS : Nat := 2000
def ANTICIPATION_THRESHOLD_MS : Nat := 100

-- GPIO.h
def RED_LED : Nat := 0x02
def BLUE_LED : Nat := 0x04
def GREEN_LED : Nat := 0x08
def SW1 : Nat := 0x10
def SW2 : Nat := 0x01

-- UART.h
def UART0_CR : Nat := 0x0D
def UART0_LF : Nat := 0x0A
def UART0_BS : Nat := 0x08

/-- The record `RoundResult` of main.c: `uint32_t reaction_time; uint8_t valid`. -/
structure RoundResult where
  reaction_time : Nat
  valid : Nat
  deriving DecidableEq, Repr

/-- What the program sends to the serial console, one entry per call of an
output routine of UART.c. -/
inductive Out where
  | chr (c : Nat)
  | str (s : String)
  | dec (n : Nat)
  | newline
  | clear
  deriving DecidableEq, Repr

/-! ## Machine state shared by the foreground and the interrupt handlers -/

/-- The static variables of GPIO.c and SysTick_Delay.c and the peripheral
registers the program writes.  `gpiof_ris` is the raw interrupt status of port
F (its masked status is `gpiof_ris &&& gpiof_im`); `nvic_en0` holds the enable
bits of interrupts 0 to 31, read through either `ISER[0]` or `ICER[0]`. -/
structure Machine where
  systick_counter : Nat
  seed : Nat
  button_flag : Nat
  reaction_time : Nat
  start_time : Nat
  gpiof_data : Nat
  gpiof_is : Nat
  gpiof_ibe : Nat
  gpiof_iev : Nat
  gpiof_im : Nat
  gpiof_ris : Nat
  nvic_en0 : Nat
  deriving DecidableEq, Repr

/-- State after reset and the initialisation calls of `main`: all statics at
their initialisers, no interrupt of port F enabled. -/
def Machine.init : Machine :=
  { systick_counter := 0, seed := 12345, button_flag := 0, reaction_time := 0,
    start_time := 0, gpiof_data := 0, gpiof_is := 0, gpiof_ibe := 0, gpiof_iev := 0,
    gpiof_im := 0, gpiof_ris := 0, nvic_en0 := 0 }

/-! ## SysTick_Delay.c -/

/-- `SysTick_Handler`: `systick_counter++`. -/
def SysTick_Handler (m : Machine) : Machine :=
  { m with systick_counter := (m.systick_counter + 1) % U32 }

/-- `SysTick_Get_Current_Time`: returns `systick_counter`. -/
def SysTick_Get_Current_Time (m : Machine) : Nat := m.systick_counter

/-- First statement of `SysTick_Delay`: `systick_counter = 0`. -/
def SysTick_Delay_enter (m : Machine) : Machine :=
  { m with systick_counter := 0 }

/-- Loop test of `SysTick_Delay`: `systick_counter < delay_ms`. -/
def SysTick_Delay_waiting (delay_ms : Nat) (m : Machine) : Bool :=
  decide (m.systick_counter < delay_ms)

/-- The busy-wait loop of `SysTick_Delay`, with the timer interrupt arriving
once between two tests of the loop condition; `fuel` bounds the number of
timer interrupts waited for. -/
def SysTick_Delay_spin (delay_ms : Nat) : Nat → Machine → Option Machine
  | 0, m => if SysTick_Delay_waiting delay_ms m then none else some m
  | fuel + 1, m =>
    if SysTick_Delay_waiting delay_ms m then
      SysTick_Delay_spin delay_ms fuel (SysTick_Handler m)
    else some m

/-- `SysTick_Delay`: `systick_counter = 0; while (systick_counter < delay_ms);`. -/
def SysTick_Delay (delay_ms fuel : Nat) (m : Machine) : Option Machine :=
  SysTick_Delay_spin delay_ms fuel (SysTick_Delay_enter m)

/-- `SysTick_Delay_Milliseconds`: calls `SysTick_Delay`. -/
def SysTick_Delay_Milliseconds (ms fuel : Nat) (m : Machine) : Option Machine :=
  SysTick_Delay ms fuel m

/-- `Generate_Random_Delay`: advances the static seed and returns
`min_ms + seed % (max_ms - min_ms + 1)` in `uint32_t` arithmetic; `none` when
the divisor is zero. -/
def Generate_Random_Delay (min_ms max_ms : Nat) (m : Machine) : Option (Nat × Machine) :=
  let seed := ((m.seed * 1103515245 + 12345) % U32) &&& 0x7FFFFFFF
  let range := (sub32 max_ms min_ms + 1) % U32
  if range = 0 then none
  else some ((min_ms + seed % range) % U32, { m with seed := seed })

/-! ## GPIO.c -/

/-- `GPIO_Enable_Interrupt`. -/
def GPIO_Enable_Interrupt (m : Machine) : Machine :=
  { m with
    gpiof_ris := m.gpiof_ris &&& not32 0x10
    gpiof_is := m.gpiof_is &&& not32 0x10
    gpiof_ibe := m.gpiof_ibe &&& not32 0x10
    gpiof_iev := m.gpiof_iev &&& not32 0x10
    gpiof_im := m.gpiof_im ||| 0x10
    nvic_en0 := m.nvic_en0 ||| (m.nvic_en0 ||| 1 <<< 30) }

/-- `GPIO_Disable_Interrupt`.  Writing a one to a bit of `ICER[0]` clears the
enable bit of that interrupt, and reading `ICER[0]` returns the enable bits, so
`NVIC->ICER[0] |= 1 << 30` clears every bit that is set and bit 30. -/
def GPIO_Disable_Interrupt (m : Machine) : Machine :=
  { m with
    gpiof_im := m.gpiof_im &&& not32 0x10
    nvic_en0 := m.nvic_en0 &&& not32 (m.nvic_en0 ||| 1 <<< 30) }

/-- `LED_On`. -/
def LED_On (color : Nat) (m : Machine) : Machine :=
  { m with gpiof_data := m.gpiof_data ||| color }

/-- `LED_Off`. -/
def LED_Off (color : Nat) (m : Machine) : Machine :=
  { m with gpiof_data := m.gpiof_data &&& not32 color }

/-- `LED_Toggle`. -/
def LED_Toggle (color : Nat) (m : Machine) : Machine :=
  { m with gpiof_data := m.gpiof_data ^^^ color }

/-- `Get_Button_Flag`. -/
def Get_Button_Flag (m : Machine) : Nat := m.button_flag

/-- `Clear_Button_Flag`. -/
def Clear_Button_Flag (m : Machine) : Machine := { m with button_flag := 0 }

/-- `Get_Reaction_Time`. -/
def Get_Reaction_Time (m : Machine) : Nat := m.reaction_time

/-- `Set_Start_Time`. -/
def Set_Start_Time (time : Nat) (m : Machine) : Machine := { m with start_time := time }

/-- `GPIOF_Handler`: when the masked interrupt status of PF4 is set, acknowledge
it, store the ticks elapsed since `start_time` and raise the flag. -/
def GPIOF_Handler (m : Machine) : Machine :=
  if (m.gpiof_ris &&& m.gpiof_im) &&& SW1 ≠ 0 then
    { m with
      gpiof_ris := m.gpiof_ris &&& not32 SW1
      reaction_time := sub32 (SysTick_Get_Current_Time m) m.start_time
      button_flag := 1 }
  else m

/-- A falling edge on PF4: the port latches it in the raw interrupt status, and
the handler runs when the interrupt is unmasked in the port and enabled in the
interrupt controller. -/
def button_edge (m : Machine) : Machine :=
  let m1 := { m with gpiof_ris := m.gpiof_ris ||| SW1 }
  if (m1.gpiof_ris &&& m1.gpiof_im) &&& SW1 ≠ 0 ∧ m1.nvic_en0 &&& (1 <<< 30) ≠ 0 then
    GPIOF_Handler m1
  else m1

/-! ## UART.c -/

/-- Loop of `UART0_Input_Unsigned_Decimal` over the characters the receiver
delivers: `number` and `length` are the locals, `out` the characters echoed so
far.  The result is the returned number, the characters not yet consumed and
the echo; `none` when the characters run out before a carriage return, in
which case the routine keeps waiting in `UART0_Input_Character`. -/
def UART0_Input_Unsigned_Decimal_loop :
    List Nat → Nat → Nat → List Out → Option (Nat × List Nat × List Out)
  | [], _, _, _ => none
  | character :: rest, number, length, out =>
    if character = UART0_CR then some (number, rest, out)
    else if 48 ≤ character ∧ character ≤ 57 then
      UART0_Input_Unsigned_Decimal_loop rest ((10 * number + (character - 48)) % U32)
        ((length + 1) % U32) (out ++ [Out.chr character])
    else if character = UART0_BS ∧ length ≠ 0 then
      UART0_Input_Unsigned_Decimal_loop rest (number / 10) (length - 1)
        (out ++ [Out.chr character])
    else UART0_Input_Unsigned_Decimal_loop rest number length out

/-- `UART0_Input_Unsigned_Decimal`. -/
def UART0_Input_Unsigned_Decimal (input : List Nat) : Option (Nat × List Nat × List Out) :=
  UART0_Input_Unsigned_Decimal_loop input 0 0 []

/-! ## main.c: configuration and results -/

/-- The part of `Get_Number_Of_Rounds` after the number `rounds` has been read
(lines 126 to 140): the new `total_rounds` and the console output. -/
def Get_Number_Of_Rounds_check (rounds total_rounds : Nat) : Nat × List Out :=
  if 1 ≤ rounds ∧ rounds ≤ MAX_ROUNDS then
    (rounds % U8,
      [Out.newline, Out.str "Number of rounds set to: ", Out.dec (rounds % U8), Out.newline])
  else
    (total_rounds,
      [Out.newline, Out.str "Invalid number, using default: ", Out.dec total_rounds,
        Out.newline])

/-- `Get_Number_Of_Rounds` on the characters `input` typed at the prompt: the
new `total_rounds`, the characters left unread and the console output. -/
def Get_Number_Of_Rounds (input : List Nat) (total_rounds : Nat) :
    Option (Nat × List Nat × List Out) :=
  match UART0_Input_Unsigned_Decimal input with
  | none => none
  | some (rounds, rest, echo) =>
    let r := Get_Number_Of_Rounds_check rounds total_rounds
    some (r.1, rest,
      [Out.newline, Out.str "Enter number of rounds (1-", Out.dec MAX_ROUNDS, Out.str "): "]
        ++ echo ++ r.2)

/-- `Declare_Winner`. -/
def Declare_Winner (average_time : Nat) : List Out :=
  [Out.newline, Out.str "--- Performance Rating ---\r\n\r\n"] ++
  (if average_time < 150 then [Out.str "Excellent! Pro gamer level!\r\n"]
   else if average_time < 200 then [Out.str "Very good! Above average!\r\n"]
   else if average_time < 250 then [Out.str "Good! Average human reaction time.\r\n"]
   else if average_time < 300 then [Out.str "Ok. Not too bad.\r\n"]
   else [Out.str "Too slow. Try to be faster!\r\n"])

/-- The five rating messages of `Declare_Winner`, in the order of its tests. -/
def rating_messages : List String :=
  ["Excellent! Pro gamer level!\r\n", "Very good! Above average!\r\n",
   "Good! Average human reaction time.\r\n", "Ok. Not too bad.\r\n",
   "Too slow. Try to be faster!\r\n"]

/-- The band a console output reports: the position in `rating_messages` of the
first rating message it contains. -/
def rating_band : List Out → Option Nat
  | [] => none
  | Out.str s :: rest =>
    if s ∈ rating_messages then some (rating_messages.indexOf s) else rating_band rest
  | _ :: rest => rating_band rest

/-- Locals of `Display_Results` while it walks the records. -/
structure Tally where
  total_valid_time : Nat
  valid_responses : Nat
  out : List Out
  deriving DecidableEq, Repr

/-- Body of the loop of `Display_Results` for the record `r` at index `i`
(lines 270 to 291). -/
def Display_Results_body (r : RoundResult) (i : Nat) (t : Tally) : Tally :=
  let out := t.out ++ [Out.str "Round ", Out.dec (i + 1), Out.str ": "]
  if r.valid ≠ 0 then
    { total_valid_time := (t.total_valid_time + r.reaction_time) % U32
      valid_responses := (t.valid_responses + 1) % U8
      out := out ++ [Out.dec r.reaction_time, Out.str " ms\r\n"] }
  else if r.reaction_time = 0 then
    { t with out := out ++ [Out.str "No response\r\n"] }
  else if r.reaction_time < ANTICIPATION_THRESHOLD_MS then
    { t with out := out ++ [Out.str "Anticipated too early\r\n"] }
  else { t with out := out }

/-- The loop of `Display_Results` over the records `game_results[i]`,
`game_results[i+1]`, ... -/
def Display_Results_loop : List RoundResult → Nat → Tally → Tally
  | [], _, t => t
  | r :: rest, i, t => Display_Results_loop rest ((i + 1) % U8) (Display_Results_body r i t)

/-- Locals of `Display_Results` when its loop over `game_results[0]` to
`game_results[current_round - 1]` has ended. -/
def Display_Results_tally (game_results : List RoundResult) (current_round : Nat) : Tally :=
  Display_Results_loop (game_results.take current_round) 0
    { total_valid_time := 0, valid_responses := 0,
      out := [Out.clear, Out.str "--- Game Results ---\r\n\r\n"] }

/-- The value of `average_time` in `Display_Results`: `none` when the branch
that divides is not taken. -/
def Display_Results_average (game_results : List RoundResult) (current_round : Nat) :
    Option Nat :=
  let t := Display_Results_tally game_results current_round
  if t.valid_responses > 0 then some (t.total_valid_time / t.valid_responses) else none

/-- `Display_Results`: the console output, up to the wait for a key. -/
def Display_Results (game_results : List RoundResult) (current_round : Nat) : List Out :=
  let t := Display_Results_tally game_results current_round
  t.out ++
  (if t.valid_responses > 0 then
    let average_time := t.total_valid_time / t.valid_responses
    [Out.str "\r\nAverage reaction time: ", Out.dec average_time, Out.str " ms\r\n"]
      ++ Declare_Winner average_time
   else [Out.str "\r\nNo valid responses recorded.\r\n"]) ++
  [Out.str "\r\nPress any key to continue..."]

/-! ## main.c: `Play_Game` as a step function

The foreground code is cut into steps that each contain at most one access to a
variable shared with an interrupt handler (`systick_counter`, `button_flag`,
`reaction_time`, `start_time`, the interrupt registers), so that every
interleaving of the handlers with the foreground is a sequence of events. -/

/-- Program locations of `Play_Game`; each names the source lines its step
executes.  `delay ms k` is the entry of `SysTick_Delay_Milliseconds(ms)` called
from the code that continues at `k`, and `spin ms k` its busy-wait loop. -/
inductive Loc where
  | entry
  | delay (ms : Nat) (k : Loc)
  | spin (ms : Nat) (k : Loc)
  | led_blue
  | led_green
  | led_done
  | for_test
  | round_begin
  | countdown_test
  | countdown_next
  | random
  | stimulus
  | read_time
  | set_start
  | enable
  | read_start_wait
  | while_test
  | read_current
  | timeout
  | timeout_off
  | disable
  | if_flag
  | classify
  | result_off
  | clear_flag
  | for_incr
  | finish
  | done
  deriving DecidableEq, Repr

/-- State of a run of `Play_Game`: the machine, the globals of main.c, the
locals of `Play_Game` and the console output.  `writes` is a history variable
that lists every assignment of a record `game_results[i]` in order, and
`out_of_bounds` is raised by a write at an index outside the array. -/
structure Play where
  m : Machine
  loc : Loc
  game_results : List RoundResult
  current_round : Nat
  total_rounds : Nat
  i : Nat
  j : Nat
  random_delay : Nat
  time_arg : Nat
  start_wait : Nat
  current_time : Nat
  reaction_time_ms : Nat
  out : List Out
  writes : List (Nat × RoundResult)
  out_of_bounds : Bool
  deriving DecidableEq, Repr

/-- The assignments `game_results[i].valid = ...; game_results[i].reaction_time
= ...;` of one branch of the round body. -/
def Play.write_result (p : Play) (r : RoundResult) : Play :=
  { p with
    game_results := p.game_results.set p.i r
    writes := p.writes ++ [(p.i, r)]
    out_of_bounds := p.out_of_bounds || decide (MAX_ROUNDS ≤ p.i) }

/-- The call state of `Play_Game` from the menu: `m` is the machine, and the
globals of main.c have the values given. -/
def Play.start (m : Machine) (game_results : List RoundResult)
    (current_round total_rounds : Nat) : Play :=
  { m := m, loc := Loc.entry, game_results := game_results,
    current_round := current_round, total_rounds := total_rounds,
    i := 0, j := 0, random_delay := 0, time_arg := 0, start_wait := 0,
    current_time := 0, reaction_time_ms := 0, out := [], writes := [],
    out_of_bounds := false }

/-- One foreground step of `Play_Game`. -/
def Play_Game_step (p : Play) : Play :=
  match p.loc with
  | Loc.entry => -- lines 145-153
    { p with
      out := p.out ++ [Out.clear, Out.str "--- Game Starting ---\r\n\r\n",
        Out.str "Get ready to press SW1 when the red LED turns on.\r\n\r\n",
        Out.str "Testing LEDs... "]
      current_round := 0
      m := LED_On RED_LED p.m
      loc := Loc.delay 500 Loc.led_blue }
  | Loc.delay ms k => -- SysTick_Delay: systick_counter = 0
    { p with m := SysTick_Delay_enter p.m, loc := Loc.spin ms k }
  | Loc.spin ms k => -- SysTick_Delay: while (systick_counter < delay_ms);
    if SysTick_Delay_waiting ms p.m then p else { p with loc := k }
  | Loc.led_blue => -- line 155
    { p with m := LED_On BLUE_LED p.m, loc := Loc.delay 500 Loc.led_green }
  | Loc.led_green => -- line 157
    { p with m := LED_On GREEN_LED p.m, loc := Loc.delay 500 Loc.led_done }
  | Loc.led_done => -- lines 159-162, i = 0
    { p with
      m := LED_Off (RED_LED ||| BLUE_LED ||| GREEN_LED) p.m
      out := p.out ++ [Out.str "LED test complete.\r\n\r\n"]
      i := 0
      loc := Loc.for_test }
  | Loc.for_test => -- line 162, i < total_rounds
    if p.i < p.total_rounds then { p with loc := Loc.round_begin }
    else { p with loc := Loc.finish }
  | Loc.round_begin => -- lines 164-176, j = 3
    { p with
      out := p.out ++ [Out.str "Round ", Out.dec (p.i + 1), Out.str " of ",
        Out.dec p.total_rounds, Out.str " - ", Out.str "Countdown: "]
      m := LED_Off (RED_LED ||| BLUE_LED ||| GREEN_LED) (Clear_Button_Flag p.m)
      j := 3
      loc := Loc.countdown_test }
  | Loc.countdown_test => -- lines 176-182, j > 0
    if p.j > 0 then
      { p with
        out := p.out ++ [Out.dec p.j, Out.str " "]
        loc := Loc.delay 2000 Loc.countdown_next }
    else { p with out := p.out ++ [Out.newline], loc := Loc.random }
  | Loc.countdown_next => -- line 176, j--
    { p with j := p.j - 1, loc := Loc.countdown_test }
  | Loc.random => -- lines 185-189
    match Generate_Random_Delay MIN_DELAY_MS MAX_DELAY_MS p.m with
    | none => p
    | some (d, m1) =>
      { p with
        random_delay := d
        m := m1
        out := p.out ++ [Out.str "Random delay: ", Out.dec d, Out.str " ms\r\n"]
        loc := Loc.delay d Loc.stimulus }
  | Loc.stimulus => -- lines 192-193
    { p with
      out := p.out ++ [Out.str "Red LED on! Press SW1!\r\n"]
      m := LED_On RED_LED p.m
      loc := Loc.read_time }
  | Loc.read_time => -- line 194, the argument SysTick_Get_Current_Time()
    { p with time_arg := SysTick_Get_Current_Time p.m, loc := Loc.set_start }
  | Loc.set_start => -- line 194, Set_Start_Time
    { p with m := Set_Start_Time p.time_arg p.m, loc := Loc.enable }
  | Loc.enable => -- line 195
    { p with m := GPIO_Enable_Interrupt p.m, loc := Loc.read_start_wait }
  | Loc.read_start_wait => -- line 198
    { p with start_wait := SysTick_Get_Current_Time p.m, loc := Loc.while_test }
  | Loc.while_test => -- line 201, !Get_Button_Flag()
    if Get_Button_Flag p.m = 0 then { p with loc := Loc.read_current }
    else { p with loc := Loc.disable }
  | Loc.read_current => -- lines 203-204
    let current_time := SysTick_Get_Current_Time p.m
    if sub32 current_time p.start_wait > TIMEOUT_MS then
      { p with current_time := current_time, loc := Loc.timeout }
    else { p with current_time := current_time, loc := Loc.while_test }
  | Loc.timeout => -- lines 207-212
    let p1 := p.write_result { reaction_time := 0, valid := 0 }
    { p1 with
      out := p1.out ++ [Out.str "Too slow! No response.\r\n"]
      m := LED_On BLUE_LED (LED_Off RED_LED p1.m)
      loc := Loc.delay 2000 Loc.timeout_off }
  | Loc.timeout_off => -- lines 213-214, break
    { p with m := LED_Off BLUE_LED p.m, loc := Loc.disable }
  | Loc.disable => -- line 218
    { p with m := GPIO_Disable_Interrupt p.m, loc := Loc.if_flag }
  | Loc.if_flag => -- line 220
    if Get_Button_Flag p.m ≠ 0 then { p with loc := Loc.classify }
    else { p with loc := Loc.clear_flag }
  | Loc.classify => -- lines 223-245
    let reaction_time_ms := Get_Reaction_Time p.m
    if reaction_time_ms < ANTICIPATION_THRESHOLD_MS then
      let p1 := p.write_result { reaction_time := reaction_time_ms, valid := 0 }
      { p1 with
        reaction_time_ms := reaction_time_ms
        out := p1.out ++ [Out.str "Too fast! Anticipated too early.\r\n"]
        m := LED_On BLUE_LED (LED_Off RED_LED p1.m)
        loc := Loc.delay 2000 Loc.result_off }
    else
      let p1 := p.write_result { reaction_time := reaction_time_ms, valid := 1 }
      { p1 with
        reaction_time_ms := reaction_time_ms
        out := p1.out ++ [Out.str "Reaction time: ", Out.dec reaction_time_ms,
          Out.str " ms\r\n"]
        m := LED_On GREEN_LED (LED_Off RED_LED p1.m)
        loc := Loc.delay 2000 Loc.result_off }
  | Loc.result_off => -- line 246
    { p with m := LED_Off (GREEN_LED ||| BLUE_LED) p.m, loc := Loc.clear_flag }
  | Loc.clear_flag => -- lines 249-253
    { p with
      m := Clear_Button_Flag p.m
      out := p.out ++ [Out.str "Round complete. Next round starting...\r\n\r\n"]
      loc := Loc.delay 2000 Loc.for_incr }
  | Loc.for_incr => -- line 162, i++
    { p with i := (p.i + 1) % U8, loc := Loc.for_test }
  | Loc.finish => -- lines 256-257
    { p with
      current_round := p.total_rounds
      out := p.out ++ Display_Results p.game_results p.total_rounds
      loc := Loc.done }
  | Loc.done => p

/-- The events of a run: a timer interrupt, a falling edge on the button input,
or one foreground step. -/
inductive Ev where
  | tick
  | edge
  | fg
  deriving DecidableEq, Repr

/-- Effect of one event. -/
def Play.event (p : Play) : Ev → Play
  | Ev.tick => { p with m := SysTick_Handler p.m }
  | Ev.edge => { p with m := button_edge p.m }
  | Ev.fg => Play_Game_step p

/-- Effect of a sequence of events, in order. -/
def Play.run (p : Play) (evs : List Ev) : Play := evs.foldl Play.event p


/-! ## Event sequences used as concrete runs -/

/-- The machine after `n` timer interrupts. -/
def Machine.advance (n : Nat) (m : Machine) : Machine :=
  { m with systick_counter := if n = 0 then m.systick_counter else (m.systick_counter + n) % U32 }

/-- Events of one call of `SysTick_Delay_Milliseconds` during which `n` timer
interrupts arrive: the step that clears the counter, the interrupts, and the
loop test that ends the wait. -/
def Ev.delay (n : Nat) : List Ev := [Ev.fg] ++ List.replicate n Ev.tick ++ [Ev.fg]

/-- The array `game_results` before any game: ten zero records. -/
def game_results_init : List RoundResult := List.replicate MAX_ROUNDS ⟨0, 0⟩

/-- `Play_Game` called after reset with the default `total_rounds = 5`. -/
def Play.reset : Play := Play.start Machine.init game_results_init 0 5

/-- From the call of `Play_Game` to the end of the random delay of round 0:
the LED test, the countdown 3, 2, 1 and the random delay, which is 2492 ms for
the initial seed.  Every delay lasts exactly its number of ticks. -/
def Ev.to_stimulus : List Ev :=
  [Ev.fg] ++ Ev.delay 500 ++ [Ev.fg] ++ Ev.delay 500 ++ [Ev.fg] ++ Ev.delay 500 ++
  [Ev.fg, Ev.fg, Ev.fg] ++
  ([Ev.fg] ++ Ev.delay 2000 ++ [Ev.fg]) ++
  ([Ev.fg] ++ Ev.delay 2000 ++ [Ev.fg]) ++
  ([Ev.fg] ++ Ev.delay 2000 ++ [Ev.fg]) ++
  [Ev.fg, Ev.fg] ++ Ev.delay 2492

/-- From the end of a round's classification to the loop test of the next
round: the 2000 ms indicator delay, the LEDs off, the flag cleared and the
2000 ms delay between rounds. -/
def Ev.to_next_round : List Ev :=
  Ev.delay 2000 ++ [Ev.fg, Ev.fg] ++ Ev.delay 2000 ++ [Ev.fg]

/-- Round 0 in which SW1 is pressed in the same millisecond in which the LED is
lit: the stimulus, the start time, the arming, then the edge, and the
foreground up to the classification. -/
def Ev.press_at_once : List Ev :=
  Ev.to_stimulus ++ [Ev.fg, Ev.fg, Ev.fg, Ev.fg, Ev.edge, Ev.fg, Ev.fg, Ev.fg, Ev.fg, Ev.fg]

/-- Round 0 up to the first test of the wait loop: the stimulus, the start
time, the arming of the capture and the read of `start_wait`, with no timer
interrupt in between. -/
def Ev.to_wait_loop : List Ev :=
  Ev.to_stimulus ++ [Ev.fg, Ev.fg, Ev.fg, Ev.fg, Ev.fg]

/-- Round 0 up to the timeout branch: SW1 is not pressed, 2001 timer
interrupts arrive after the wait loop is entered, and the next pass through the
loop takes the branch of line 204. -/
def Ev.until_timeout : List Ev :=
  Ev.to_wait_loop ++ [Ev.fg, Ev.fg] ++ List.replicate 2001 Ev.tick ++ [Ev.fg, Ev.fg]

/-- Round 0 with a timeout as in `Ev.until_timeout`, then the timeout branch
during whose 2000 ms delay SW1 is pressed, `late` ms into it, and then the
foreground up to the classification. -/
def Ev.press_after_timeout (late : Nat) : List Ev :=
  Ev.until_timeout ++ [Ev.fg] ++
  ([Ev.fg] ++ List.replicate late Ev.tick ++ [Ev.edge] ++
    List.replicate (2000 - late) Ev.tick ++ [Ev.fg]) ++
  [Ev.fg, Ev.fg, Ev.fg, Ev.fg]

/-- Round 0 in which SW1 is pressed `t` ms after the wait loop is entered, and
the foreground then leaves the loop, disarms the capture and classifies. -/
def Ev.press_at (t : Nat) : List Ev :=
  Ev.to_wait_loop ++ List.replicate t Ev.tick ++ [Ev.edge] ++ [Ev.fg, Ev.fg, Ev.fg, Ev.fg]

/-- Round 0 up to a press of SW1 150 ms after the LED is lit, before the
foreground has run again. -/
def Ev.first_press : List Ev :=
  Ev.to_wait_loop ++ List.replicate 150 Ev.tick ++ [Ev.edge]

/-! ## Predicates on states and runs, and quantities the statements use -/

/-- What `Declare_Winner` sends when it rates with the message `msg`: the
newline, the heading and that one message. -/
def rating_output (msg : String) : List Out :=
  [Out.newline, Out.str "--- Performance Rating ---\r\n\r\n", Out.str msg]

/-- Number of rating messages in a console output. -/
def rating_count : List Out → Nat
  | [] => 0
  | Out.str s :: rest => (if s ∈ rating_messages then 1 else 0) + rating_count rest
  | _ :: rest => rating_count rest

/-- Reaction times of the records whose `valid` flag is set, in order. -/
def valid_times (rs : List RoundResult) : List Nat :=
  (rs.filter (fun r => decide (r.valid ≠ 0))).map (fun r => r.reaction_time)

/-- Whether a falling edge on PF4 runs the capture of `GPIOF_Handler`: PF4 is
unmasked in the interrupt mask of port F and interrupt 30 is enabled. -/
def capture_armed (m : Machine) : Bool :=
  decide (m.gpiof_im &&& SW1 ≠ 0 ∧ m.nvic_en0 &&& (1 <<< 30) ≠ 0)

/-- Whether the location is the entry of `SysTick_Delay`. -/
def Loc.is_delay : Loc → Bool
  | Loc.delay _ _ => true
  | _ => false

/-- Whether some foreground step of the run `evs` from `p` enters
`SysTick_Delay`. -/
def Play.enters_delay (p : Play) : List Ev → Bool
  | [] => false
  | ev :: evs => (decide (ev = Ev.fg) && p.loc.is_delay) || (p.event ev).enters_delay evs

/-! ## main.c: the menu loop -/

/-- `Display_Menu`. -/
def Display_Menu (total_rounds : Nat) : List Out :=
  [Out.newline, Out.str "--- Main Menu ---\r\n\r\n",
   Out.str "1. Set Number of Rounds (Current: ", Out.dec total_rounds, Out.str ")\r\n\r\n",
   Out.str "2. Start Game\r\n\r\n", Out.str "3. View Previous Results\r\n\r\n",
   Out.str "4. Exit\r\n\r\n", Out.str "Enter your choice: "]

/-- State of the program at the top of the loop of `main`: the machine, the
globals of main.c, the console output, the characters the receiver has still
to deliver, and whether `main` has returned. -/
structure Main where
  m : Machine
  game_results : List RoundResult
  current_round : Nat
  total_rounds : Nat
  out : List Out
  input : List Nat
  exited : Bool
  deriving DecidableEq, Repr

/-- State when `main` enters its loop, with `input` the characters the user is
going to type. -/
def Main.init (input : List Nat) : Main :=
  { m := Machine.init, game_results := game_results_init, current_round := 0,
    total_rounds := 5,
    out := [Out.clear, Out.str "--- Reaction Time Game ---\r\n\r\n",
      Out.str "ECE 425 Final Project\r\n\r\n"],
    input := input, exited := false }

/-- The state in which `Play_Game` is called from the menu state `s`. -/
def Main.play (s : Main) : Play :=
  Play.start s.m s.game_results s.current_round s.total_rounds

/-- One pass through the loop of `main` (lines 75 to 101).  `evs` are the
events that occur while `Play_Game` runs, used when the choice is '2'.  The
result is `none` when `main` has returned, when the pass waits for a character
that `input` does not hold, or when `evs` ends before `Play_Game` does. -/
def main_pass (s : Main) (evs : List Ev) : Option Main :=
  if s.exited then none
  else
    match s.input with
    | [] => none
    | choice :: rest =>
      let out := s.out ++ Display_Menu s.total_rounds ++ [Out.chr choice, Out.newline]
      if choice = 49 then -- case '1'
        match Get_Number_Of_Rounds rest s.total_rounds with
        | none => none
        | some (total_rounds, rest1, o) =>
          some { s with total_rounds := total_rounds, out := out ++ o, input := rest1 }
      else if choice = 50 then -- case '2'
        let p := s.play.run evs
        if p.loc = Loc.done then
          match rest with
          | [] => none
          | _ :: rest1 =>
            some { s with
              m := p.m
              game_results := p.game_results
              current_round := p.current_round
              total_rounds := p.total_rounds
              out := out ++ p.out ++ [Out.newline]
              input := rest1 }
        else none
      else if choice = 51 then -- case '3'
        match rest with
        | [] => none
        | _ :: rest1 =>
          some { s with
            out := out ++ Display_Results s.game_results s.current_round ++ [Out.newline]
            input := rest1 }
      else if choice = 52 then -- case '4'
        some { s with out := out ++ [Out.str "Exiting...\r\n"], input := rest, exited := true }
      else -- default
        some { s with out := out ++ [Out.str "\r\nInvalid choice, try again.\r\n"],
                      input := rest }

/-- Passes through the loop of `main`, one for each entry of `scheds`; the
entry gives the events during `Play_Game` should that pass call it. -/
def main_run (s : Main) : List (List Ev) → Option Main
  | [] => some s
  | evs :: scheds =>
    match main_pass s evs with
    | none => none
    | some s1 => main_run s1 scheds

/-- The indices `i` at which the loop `for (i = 0; i < current_round; i++)` of
`Display_Results` reads `game_results[i]`. -/
def Display_Results_indices (current_round : Nat) : List Nat := List.range current_round

/-- Whether the location lies in the body of the loop over the rounds of
`Play_Game` (lines 164 to 253 and the increment). -/
def Loc.in_round : Loc → Bool
  | Loc.delay _ k => k.in_round
  | Loc.spin _ k => k.in_round
  | Loc.entry => false
  | Loc.led_blue => false
  | Loc.led_green => false
  | Loc.led_done => false
  | Loc.for_test => false
  | Loc.finish => false
  | Loc.done => false
  | _ => true

/-- One whole game of one round in which SW1 is pressed 250 ms after the wait
loop is entered: round 0 up to the classification, the rest of the round, the
loop test that ends the game and the call of `Display_Results`. -/
def Ev.one_round_game : List Ev :=
  Ev.press_at 250 ++ Ev.to_next_round ++ [Ev.fg, Ev.fg]

/-- Bounds on the globals of main.c and on the round index while `Play_Game`
runs: the round count and the count of played rounds are within the capacity
of `game_results`, no record has been written outside the array, and inside
the loop over the rounds the index is below the round count. -/
def Play.bounded (p : Play) : Prop :=
  1 ≤ p.total_rounds ∧ p.total_rounds ≤ MAX_ROUNDS ∧ p.current_round ≤ MAX_ROUNDS ∧
  p.game_results.length = MAX_ROUNDS ∧ p.out_of_bounds = false ∧
  (∀ w ∈ p.writes, w.1 < MAX_ROUNDS) ∧
  (p.loc.in_round = true → p.i < p.total_rounds)

/-- Bounds on the globals of main.c at the top of the loop of `main`. -/
def Main.bounded (s : Main) : Prop :=
  1 ≤ s.total_rounds ∧ s.total_rounds ≤ MAX_ROUNDS ∧ s.current_round ≤ MAX_ROUNDS ∧
  s.game_results.length = MAX_ROUNDS

/-! ## Runs -/

theorem Play.run_cons (p : Play) (ev : Ev) (evs : List Ev) :
    p.run (ev :: evs) = (p.event ev).run evs := rfl

theorem Play.run_append (p : Play) (xs ys : List Ev) :
    p.run (xs ++ ys) = (p.run xs).run ys := by
  simp [Play.run, List.foldl_append]

theorem Machine.advance_succ (n : Nat) (m : Machine) :
    (SysTick_Handler m).advance n = m.advance (n + 1) := by
  cases n with
  | zero => simp [Machine.advance, SysTick_Handler]
  | succ k =>
    simp only [Machine.advance, SysTick_Handler, Nat.succ_ne_zero, if_false]
    congr 1
    unfold U32
    omega

/-- `n` timer interrupts in a row add `n` to the counter, modulo 2^32. -/
theorem Play.run_ticks (n : Nat) : ∀ p : Play,
    p.run (List.replicate n Ev.tick) = { p with m := p.m.advance n } := by
  induction n with
  | zero => intro p; simp [Play.run, Machine.advance]
  | succ k ih =>
    intro p
    rw [List.replicate_succ, Play.run_cons, ih, Play.event]
    simp only [Machine.advance_succ]

/-- `Generate_Random_Delay` changes no part of the machine but the seed. -/
theorem Generate_Random_Delay_machine (lo hi d : Nat) (m m1 : Machine)
    (h : Generate_Random_Delay lo hi m = some (d, m1)) :
    m1 = { m with seed := m1.seed } := by
  unfold Generate_Random_Delay at h
  simp only at h
  split_ifs at h
  simp only [Option.some.injEq, Prod.mk.injEq] at h
  rw [← h.2]


/-! ## C1: classification of a captured press -/

/-- The record written by the classification step is `TooFast` (`valid = 0`)
for a captured time below 100 and `Valid` (`valid = 1`) from 100 on, and
`Display_Results` reads it back as the same class except for the captured
time 0, which it reads as "No response". -/
theorem classify_read_back (p : Play) (i : Nat) (t : Tally) (hloc : p.loc = Loc.classify) :
    (Play_Game_step p).writes = p.writes ++
      [(p.i, ⟨p.m.reaction_time, if p.m.reaction_time < 100 then 0 else 1⟩)] ∧
    (100 ≤ p.m.reaction_time →
      (Display_Results_body ⟨p.m.reaction_time, 1⟩ i t).out =
        t.out ++ [Out.str "Round ", Out.dec (i + 1), Out.str ": ",
          Out.dec p.m.reaction_time, Out.str " ms\r\n"]) ∧
    (0 < p.m.reaction_time → p.m.reaction_time < 100 →
      (Display_Results_body ⟨p.m.reaction_time, 0⟩ i t).out =
        t.out ++ [Out.str "Round ", Out.dec (i + 1), Out.str ": ",
          Out.str "Anticipated too early\r\n"]) ∧
    (p.m.reaction_time = 0 →
      (Display_Results_body ⟨p.m.reaction_time, 0⟩ i t).out =
        t.out ++ [Out.str "Round ", Out.dec (i + 1), Out.str ": ",
          Out.str "No response\r\n"]) := by
  refine ⟨?_, ?_, ?_, ?_⟩
  · simp only [Play_Game_step, hloc, Get_Reaction_Time, ANTICIPATION_THRESHOLD_MS]
    split_ifs <;> simp [Play.write_result]
  · intro h
    simp [Display_Results_body]
  · intro h0 h1
    have h2 : p.m.reaction_time ≠ 0 := by omega
    simp [Display_Results_body, h2, ANTICIPATION_THRESHOLD_MS, h1]
  · intro h
    simp [Display_Results_body, h]

/-- Two ordinary rounds: a press 250 ms after the LED is lit is stored as
`{250, 1}` and a press after 40 ms as `{40, 0}`; `Display_Results` prints the
first as a time and the second as "Anticipated too early". -/
theorem press_at_250_and_at_40 :
    (Play.reset.run (Ev.press_at 250)).writes = [(0, ⟨250, 1⟩)] ∧
    (Play.reset.run (Ev.press_at 40)).writes = [(0, ⟨40, 0⟩)] ∧
    Out.str "Anticipated too early\r\n" ∈
      Display_Results (Play.reset.run (Ev.press_at 40)).game_results 1 ∧
    Out.dec 250 ∈ Display_Results (Play.reset.run (Ev.press_at 250)).game_results 1 := by
  simp only [Ev.press_at, Ev.to_wait_loop, Ev.to_stimulus, Ev.delay, Play.run_append,
    Play.run_ticks]
  decide

/-- C1 at the failing input: SW1 is pressed in the millisecond in which the LED
is lit, the handler captures the elapsed time 0 before any timeout check, and
`Play_Game` announces "Too fast! Anticipated too early."; the record it stores
is `{reaction_time = 0, valid = 0}`, for which `Display_Results` prints
"No response" and not "Anticipated too early". -/
theorem C1_capture_at_zero_reads_back_no_response :
    (Play.reset.run Ev.press_at_once).m.button_flag = 1 ∧
    (Play.reset.run Ev.press_at_once).m.reaction_time = 0 ∧
    (Play.reset.run Ev.press_at_once).writes = [(0, ⟨0, 0⟩)] ∧
    (Play.reset.run Ev.press_at_once).out.getLast? =
      some (Out.str "Too fast! Anticipated too early.\r\n") ∧
    (Play.reset.run Ev.press_at_once).game_results.head? = some ⟨0, 0⟩ ∧
    Display_Results (Play.reset.run Ev.press_at_once).game_results 1 =
      [Out.clear, Out.str "--- Game Results ---\r\n\r\n", Out.str "Round ", Out.dec 1,
       Out.str ": ", Out.str "No response\r\n",
       Out.str "\r\nNo valid responses recorded.\r\n",
       Out.str "\r\nPress any key to continue..."] := by
  simp only [Ev.press_at_once, Ev.to_stimulus, Ev.delay, Play.run_append, Play.run_ticks]
  decide

/-! ## C2: a round that times out -/

/-- C2 at the failing input: in round 0 no edge arrives before the timeout
branch runs (the flag is clear and 2001 ms have passed when line 204 is taken),
and the record is first written as NoResponse; SW1 is then pressed 100 ms into
the 2000 ms delay of the timeout branch, while the interrupt is still enabled.
When the round ends `game_results[0]` is `{reaction_time = 4294964904,
valid = 1}`: the handler subtracted the start time 2492 from the counter that
`SysTick_Delay` had cleared, and the block after `GPIO_Disable_Interrupt`
stored it as a valid response. -/
theorem C2_press_during_timeout_delay_overwrites :
    (Play.reset.run Ev.until_timeout).loc = Loc.timeout ∧
    (Play.reset.run Ev.until_timeout).m.button_flag = 0 ∧
    sub32 (Play.reset.run Ev.until_timeout).current_time
      (Play.reset.run Ev.until_timeout).start_wait = 2001 ∧
    (Play.reset.run (Ev.until_timeout ++ [Ev.fg])).game_results.head? = some ⟨0, 0⟩ ∧
    (Play.reset.run (Ev.press_after_timeout 100 ++ Ev.to_next_round)).loc = Loc.for_test ∧
    (Play.reset.run (Ev.press_after_timeout 100 ++ Ev.to_next_round)).i = 1 ∧
    (Play.reset.run (Ev.press_after_timeout 100 ++ Ev.to_next_round)).game_results.head? =
      some ⟨4294964904, 1⟩ := by
  simp only [Ev.press_after_timeout, Ev.until_timeout, Ev.to_wait_loop, Ev.to_next_round,
    Ev.to_stimulus, Ev.delay, Play.run_append, Play.run_ticks]
  decide

/-! ## C3: one record per round -/

/-- C3 at the failing input: in round 0 the timeout branch writes
`game_results[0]`, SW1 is pressed 1500 ms into the delay of that branch, and
the block after `GPIO_Disable_Interrupt` writes `game_results[0]` a second
time.  The round body has assigned the record twice when the round ends. -/
theorem C3_round_writes_record_twice :
    (Play.reset.run (Ev.press_after_timeout 1500 ++ Ev.to_next_round)).loc = Loc.for_test ∧
    (Play.reset.run (Ev.press_after_timeout 1500 ++ Ev.to_next_round)).i = 1 ∧
    (Play.reset.run (Ev.press_after_timeout 1500 ++ Ev.to_next_round)).writes =
      [(0, ⟨0, 0⟩), (0, ⟨4294966304, 1⟩)] ∧
    (Play.reset.run (Ev.press_after_timeout 1500 ++ Ev.to_next_round)).out_of_bounds
      = false := by
  simp only [Ev.press_after_timeout, Ev.until_timeout, Ev.to_wait_loop, Ev.to_next_round,
    Ev.to_stimulus, Ev.delay, Play.run_append, Play.run_ticks]
  decide

/-! ## C4: the average reported by `Display_Results` -/

theorem Display_Results_loop_total (rs : List RoundResult) :
    ∀ (i : Nat) (t : Tally), t.total_valid_time < U32 →
      (Display_Results_loop rs i t).total_valid_time =
        (t.total_valid_time + (valid_times rs).sum) % U32 := by
  induction rs with
  | nil =>
    intro i t ht
    simp [Display_Results_loop, valid_times, Nat.mod_eq_of_lt ht]
  | cons r rest ih =>
    intro i t ht
    have hpos : 0 < U32 := by decide
    by_cases hv : r.valid ≠ 0
    · have hb : Display_Results_body r i t =
          { total_valid_time := (t.total_valid_time + r.reaction_time) % U32
            valid_responses := (t.valid_responses + 1) % U8
            out := t.out ++ [Out.str "Round ", Out.dec (i + 1), Out.str ": "] ++
              [Out.dec r.reaction_time, Out.str " ms\r\n"] } := by
        simp [Display_Results_body, hv]
      have hvt : valid_times (r :: rest) = r.reaction_time :: valid_times rest := by
        simp [valid_times, hv]
      rw [Display_Results_loop, ih _ _ (by rw [hb]; exact Nat.mod_lt _ hpos), hb, hvt]
      simp only [List.sum_cons]
      rw [Nat.mod_add_mod, Nat.add_assoc]
    · have hv0 : r.valid = 0 := by omega
      have hb : (Display_Results_body r i t).total_valid_time = t.total_valid_time := by
        simp only [Display_Results_body, hv0]
        split_ifs <;> simp_all
      have hvt : valid_times (r :: rest) = valid_times rest := by
        simp [valid_times, hv0]
      rw [Display_Results_loop, ih _ _ (by rw [hb]; exact ht), hb, hvt]

theorem Display_Results_loop_count (rs : List RoundResult) :
    ∀ (i : Nat) (t : Tally), t.valid_responses < U8 →
      (Display_Results_loop rs i t).valid_responses =
        (t.valid_responses + (valid_times rs).length) % U8 := by
  induction rs with
  | nil =>
    intro i t ht
    simp [Display_Results_loop, valid_times, Nat.mod_eq_of_lt ht]
  | cons r rest ih =>
    intro i t ht
    have hpos : 0 < U8 := by decide
    by_cases hv : r.valid ≠ 0
    · have hb : (Display_Results_body r i t).valid_responses =
          (t.valid_responses + 1) % U8 := by
        simp [Display_Results_body, hv]
      have hvt : valid_times (r :: rest) = r.reaction_time :: valid_times rest := by
        simp [valid_times, hv]
      rw [Display_Results_loop, ih _ _ (by rw [hb]; exact Nat.mod_lt _ hpos), hb, hvt]
      simp only [List.length_cons]
      rw [Nat.mod_add_mod]
      congr 1
      omega
    · have hv0 : r.valid = 0 := by omega
      have hb : (Display_Results_body r i t).valid_responses = t.valid_responses := by
        simp only [Display_Results_body, hv0]
        split_ifs <;> simp_all
      have hvt : valid_times (r :: rest) = valid_times rest := by
        simp [valid_times, hv0]
      rw [Display_Results_loop, ih _ _ (by rw [hb]; exact ht), hb, hvt]

theorem valid_times_length_le (rs : List RoundResult) :
    (valid_times rs).length ≤ rs.length := by
  unfold valid_times
  rw [List.length_map]
  exact List.length_filter_le _ _

/-- C4, as stated, fails.  Two valid records of 4294964904 ms (the value a
press during the delay of the timeout branch records in round 0) have the
arithmetic mean 4294964904, and `Display_Results` reports 2147481256, because
the 32-bit sum wraps. -/
theorem C4_mean_counterexample :
    valid_times [⟨4294964904, 1⟩, ⟨4294964904, 1⟩] = [4294964904, 4294964904] ∧
    (valid_times [⟨4294964904, 1⟩, ⟨4294964904, 1⟩]).sum /
      (valid_times [⟨4294964904, 1⟩, ⟨4294964904, 1⟩]).length = 4294964904 ∧
    Display_Results_average [⟨4294964904, 1⟩, ⟨4294964904, 1⟩] 2 = some 2147481256 ∧
    Out.dec 2147481256 ∈ Display_Results [⟨4294964904, 1⟩, ⟨4294964904, 1⟩] 2 := by
  decide

/-- C4, amended. With `v` the reaction times of the records among
`game_results[0..current_round)` whose `valid` flag is set: when `v` is empty
`Display_Results` prints "No valid responses recorded." and computes no
average; otherwise it reports the sum of `v` reduced modulo 2^32, divided by
the number of entries of `v`, which is the arithmetic mean of `v` whenever
that sum is below 2^32.  Records that are not valid enter neither the sum nor
the count.  Witness: Valid 100, TooFast 50, Valid 300 gives 200. -/
theorem C4_Display_Results_mean (game_results : List RoundResult) (current_round : Nat)
    (hcr : current_round < U8) :
    (valid_times (game_results.take current_round) = [] →
      Display_Results_average game_results current_round = none ∧
      Display_Results game_results current_round =
        (Display_Results_tally game_results current_round).out ++
          [Out.str "\r\nNo valid responses recorded.\r\n",
           Out.str "\r\nPress any key to continue..."]) ∧
    (valid_times (game_results.take current_round) ≠ [] →
      Display_Results_average game_results current_round =
        some ((valid_times (game_results.take current_round)).sum % U32 /
          (valid_times (game_results.take current_round)).length) ∧
      Display_Results game_results current_round =
        (Display_Results_tally game_results current_round).out ++
          [Out.str "\r\nAverage reaction time: ",
           Out.dec ((valid_times (game_results.take current_round)).sum % U32 /
             (valid_times (game_results.take current_round)).length),
           Out.str " ms\r\n"] ++
          Declare_Winner ((valid_times (game_results.take current_round)).sum % U32 /
             (valid_times (game_results.take current_round)).length) ++
          [Out.str "\r\nPress any key to continue..."]) ∧
    ((valid_times (game_results.take current_round)).sum < U32 →
      valid_times (game_results.take current_round) ≠ [] →
      Display_Results_average game_results current_round =
        some ((valid_times (game_results.take current_round)).sum /
          (valid_times (game_results.take current_round)).length)) ∧
    Display_Results_average [⟨100, 1⟩, ⟨50, 0⟩, ⟨300, 1⟩] 3 = some 200 := by
  have htot : (Display_Results_tally game_results current_round).total_valid_time =
      (valid_times (game_results.take current_round)).sum % U32 := by
    unfold Display_Results_tally
    rw [Display_Results_loop_total _ _ _ (by decide)]
    simp
  have hlen : (valid_times (game_results.take current_round)).length < U8 := by
    have h1 := valid_times_length_le (game_results.take current_round)
    have h2 : (game_results.take current_round).length ≤ current_round :=
      List.length_take_le _ _
    omega
  have hcnt : (Display_Results_tally game_results current_round).valid_responses =
      (valid_times (game_results.take current_round)).length := by
    unfold Display_Results_tally
    rw [Display_Results_loop_count _ _ _ (by decide)]
    simp only [Nat.zero_add]
    exact Nat.mod_eq_of_lt hlen
  have havg : valid_times (game_results.take current_round) ≠ [] →
      Display_Results_average game_results current_round =
        some ((valid_times (game_results.take current_round)).sum % U32 /
          (valid_times (game_results.take current_round)).length) := by
    intro hne
    have hpos : 0 < (valid_times (game_results.take current_round)).length :=
      List.length_pos.mpr hne
    simp only [Display_Results_average, htot, hcnt, gt_iff_lt, hpos, if_true]
  refine ⟨fun hnil => ⟨?_, ?_⟩, fun hne => ⟨havg hne, ?_⟩, fun hs hne => ?_, by decide⟩
  · simp [Display_Results_average, hcnt, hnil]
  · simp [Display_Results, hcnt, hnil]
  · have hpos : 0 < (valid_times (game_results.take current_round)).length :=
      List.length_pos.mpr hne
    simp [Display_Results, htot, hcnt, hpos]
  · rw [havg hne, Nat.mod_eq_of_lt hs]

/-- Witness for C4: the records Valid 100, TooFast 50, Valid 300 of a three
round game are averaged to 200. -/
theorem C4_Display_Results_mean_witness :
    Display_Results_average [⟨100, 1⟩, ⟨50, 0⟩, ⟨300, 1⟩] 3 =
      some ((valid_times ([⟨100, 1⟩, ⟨50, 0⟩, ⟨300, 1⟩].take 3)).sum /
        (valid_times ([⟨100, 1⟩, ⟨50, 0⟩, ⟨300, 1⟩].take 3)).length) :=
  (C4_Display_Results_mean [⟨100, 1⟩, ⟨50, 0⟩, ⟨300, 1⟩] 3 (by decide)).2.2.1
    (by decide) (by decide)

/-! ## C5: the rating bands of `Declare_Winner` -/

/-- The whole output of `Declare_Winner`: the heading followed by the one
message its chain of tests selects. -/
theorem Declare_Winner_output (m : Nat) :
    Declare_Winner m = rating_output
      (if m < 150 then "Excellent! Pro gamer level!\r\n"
       else if m < 200 then "Very good! Above average!\r\n"
       else if m < 250 then "Good! Average human reaction time.\r\n"
       else if m < 300 then "Ok. Not too bad.\r\n"
       else "Too slow. Try to be faster!\r\n") := by
  unfold Declare_Winner rating_output
  split_ifs <;> rfl

theorem rating_output_inj (a b : String) : rating_output a = rating_output b ↔ a = b := by
  simp [rating_output]

/-- C5. For every mean `m`, the whole output of `Declare_Winner` is the heading
followed by exactly one of the five rating messages, chosen by the ascending
thresholds 150, 200, 250, 300: "Excellent" iff `m < 150`, "Very good" iff
`150 <= m < 200`, "Good" iff `200 <= m < 250`, "Ok" iff `250 <= m < 300`,
"Too slow" iff `m >= 300`; no other band's output is produced, the output
holds one rating message, and the band index (the position of the message in
the order of the tests) is monotone in `m`.  The session NoResponse,
Valid(180), Valid(220) has mean 200 and `Display_Results` rates it "Good",
with that one rating message in its output. -/
theorem C5_Declare_Winner_bands :
    (∀ m : Nat,
      (Declare_Winner m = rating_output "Excellent! Pro gamer level!\r\n" ↔ m < 150) ∧
      (Declare_Winner m = rating_output "Very good! Above average!\r\n" ↔
        150 ≤ m ∧ m < 200) ∧
      (Declare_Winner m = rating_output "Good! Average human reaction time.\r\n" ↔
        200 ≤ m ∧ m < 250) ∧
      (Declare_Winner m = rating_output "Ok. Not too bad.\r\n" ↔ 250 ≤ m ∧ m < 300) ∧
      (Declare_Winner m = rating_output "Too slow. Try to be faster!\r\n" ↔ 300 ≤ m) ∧
      (∃ k, k < 5 ∧ Declare_Winner m = rating_output (rating_messages.getD k "") ∧
        ∀ j, j < 5 → Declare_Winner m = rating_output (rating_messages.getD j "") → j = k) ∧
      rating_count (Declare_Winner m) = 1 ∧
      (∃ k, k < 5 ∧ rating_band (Declare_Winner m) = some k) ∧
      (rating_band (Declare_Winner m) = some 0 ↔ m < 150) ∧
      (rating_band (Declare_Winner m) = some 1 ↔ 150 ≤ m ∧ m < 200) ∧
      (rating_band (Declare_Winner m) = some 2 ↔ 200 ≤ m ∧ m < 250) ∧
      (rating_band (Declare_Winner m) = some 3 ↔ 250 ≤ m ∧ m < 300) ∧
      (rating_band (Declare_Winner m) = some 4 ↔ 300 ≤ m)) ∧
    (∀ m n a b : Nat, m ≤ n → rating_band (Declare_Winner m) = some a →
      rating_band (Declare_Winner n) = some b → a ≤ b) ∧
    (∀ m n a b : Nat, m ≤ n → a < 5 → b < 5 →
      Declare_Winner m = rating_output (rating_messages.getD a "") →
      Declare_Winner n = rating_output (rating_messages.getD b "") → a ≤ b) ∧
    rating_messages =
      ["Excellent! Pro gamer level!\r\n", "Very good! Above average!\r\n",
       "Good! Average human reaction time.\r\n", "Ok. Not too bad.\r\n",
       "Too slow. Try to be faster!\r\n"] ∧
    Display_Results_average
      ([⟨0, 0⟩, ⟨180, 1⟩, ⟨220, 1⟩] ++ List.replicate 7 ⟨0, 0⟩) 3 = some 200 ∧
    rating_band (Display_Results
      ([⟨0, 0⟩, ⟨180, 1⟩, ⟨220, 1⟩] ++ List.replicate 7 ⟨0, 0⟩) 3) = some 2 ∧
    Display_Results ([⟨0, 0⟩, ⟨180, 1⟩, ⟨220, 1⟩] ++ List.replicate 7 ⟨0, 0⟩) 3 =
      [Out.clear, Out.str "--- Game Results ---\r\n\r\n",
       Out.str "Round ", Out.dec 1, Out.str ": ", Out.str "No response\r\n",
       Out.str "Round ", Out.dec 2, Out.str ": ", Out.dec 180, Out.str " ms\r\n",
       Out.str "Round ", Out.dec 3, Out.str ": ", Out.dec 220, Out.str " ms\r\n",
       Out.str "\r\nAverage reaction time: ", Out.dec 200, Out.str " ms\r\n"] ++
      rating_output "Good! Average human reaction time.\r\n" ++
      [Out.str "\r\nPress any key to continue..."] := by
  have key : ∀ m : Nat, rating_band (Declare_Winner m) =
      some (if m < 150 then 0 else if m < 200 then 1 else if m < 250 then 2
        else if m < 300 then 3 else 4) := by
    intro m
    unfold Declare_Winner
    split_ifs <;> decide
  have idx : ∀ m : Nat, Declare_Winner m = rating_output (rating_messages.getD
      (if m < 150 then 0 else if m < 200 then 1 else if m < 250 then 2
        else if m < 300 then 3 else 4) "") := by
    intro m
    rw [Declare_Winner_output]
    split_ifs <;> rfl
  have distinct : ∀ j k, j < 5 → k < 5 →
      rating_messages.getD j "" = rating_messages.getD k "" → j = k := by
    intro j k hj hk h
    interval_cases j <;> interval_cases k <;> first | rfl | exact absurd h (by decide)
  refine ⟨fun m => ⟨?_, ?_, ?_, ?_, ?_, ?_, ?_, ?_, ?_, ?_, ?_, ?_, ?_⟩,
    fun m n a b hmn ha hb => ?_, fun m n a b hmn ha hb hma hnb => ?_, rfl, by decide,
    by decide, by decide⟩
  · rw [Declare_Winner_output, rating_output_inj]; split_ifs <;> simp <;> omega
  · rw [Declare_Winner_output, rating_output_inj]; split_ifs <;> simp <;> omega
  · rw [Declare_Winner_output, rating_output_inj]; split_ifs <;> simp <;> omega
  · rw [Declare_Winner_output, rating_output_inj]; split_ifs <;> simp <;> omega
  · rw [Declare_Winner_output, rating_output_inj]; split_ifs <;> simp <;> omega
  · refine ⟨_, ?_, idx m, fun j hj hjm => ?_⟩
    · split_ifs <;> decide
    · rw [idx m, rating_output_inj] at hjm
      exact distinct _ _ hj (by split_ifs <;> decide) hjm.symm
  · rw [Declare_Winner_output]; split_ifs <;> decide
  · rw [key m]; exact ⟨_, by split_ifs <;> decide, rfl⟩
  · rw [key m]; split_ifs <;> simp <;> omega
  · rw [key m]; split_ifs <;> simp <;> omega
  · rw [key m]; split_ifs <;> simp <;> omega
  · rw [key m]; split_ifs <;> simp <;> omega
  · rw [key m]; split_ifs <;> simp <;> omega
  · rw [key m] at ha
    rw [key n] at hb
    simp only [Option.some.injEq] at ha hb
    subst ha hb
    split_ifs <;> omega
  · rw [idx m, rating_output_inj] at hma
    rw [idx n, rating_output_inj] at hnb
    have h1 := distinct _ _ (by split_ifs <;> decide) ha hma
    have h2 := distinct _ _ (by split_ifs <;> decide) hb hnb
    rw [← h1, ← h2]
    split_ifs <;> omega

/-! ## C6: validation of the round count -/

/-- C6. For every 32-bit number `r` returned by the decimal input routine and
every prior value `c` of `total_rounds`: when `1 <= r <= MAX_ROUNDS`,
`Get_Number_Of_Rounds` sets `total_rounds` to `r` itself (the conversion to
8 bits loses nothing) and prints "Number of rounds set to: "; otherwise
`total_rounds` stays `c` and the "Invalid number" message is printed. -/
theorem C6_Get_Number_Of_Rounds_validates (input rest : List Nat) (echo : List Out)
    (r c : Nat)
    (hin : UART0_Input_Unsigned_Decimal input = some (r, rest, echo)) :
    ((1 ≤ r ∧ r ≤ MAX_ROUNDS) →
      Get_Number_Of_Rounds input c = some (r, rest,
        [Out.newline, Out.str "Enter number of rounds (1-", Out.dec MAX_ROUNDS,
          Out.str "): "] ++ echo ++
        [Out.newline, Out.str "Number of rounds set to: ", Out.dec r, Out.newline])) ∧
    (¬ (1 ≤ r ∧ r ≤ MAX_ROUNDS) →
      Get_Number_Of_Rounds input c = some (c, rest,
        [Out.newline, Out.str "Enter number of rounds (1-", Out.dec MAX_ROUNDS,
          Out.str "): "] ++ echo ++
        [Out.newline, Out.str "Invalid number, using default: ", Out.dec c,
          Out.newline])) := by
  constructor
  · intro h
    have h8 : r % U8 = r := Nat.mod_eq_of_lt (by unfold MAX_ROUNDS at h; unfold U8; omega)
    simp [Get_Number_Of_Rounds, hin, Get_Number_Of_Rounds_check, h, h8]
  · intro h
    simp [Get_Number_Of_Rounds, hin, Get_Number_Of_Rounds_check, h]

/-- Witness for C6: typing "7" then carriage return with `total_rounds = 5`. -/
theorem C6_Get_Number_Of_Rounds_validates_witness :
    Get_Number_Of_Rounds [55, 13] 5 = some (7, [],
      [Out.newline, Out.str "Enter number of rounds (1-", Out.dec MAX_ROUNDS,
        Out.str "): "] ++ [Out.chr 55] ++
      [Out.newline, Out.str "Number of rounds set to: ", Out.dec 7, Out.newline]) :=
  (C6_Get_Number_Of_Rounds_validates [55, 13] [] [Out.chr 55] 7 5 (by decide)).1
    (by decide)

/-! ## C7: what the prompt for the round count accepts -/

/-- C8. For every value of the generator seed and every `min_ms <= max_ms`
(32-bit values) whose span `max_ms - min_ms + 1` does not wrap to zero,
`Generate_Random_Delay` returns `d = min_ms + seed % (max_ms - min_ms + 1)`
computed without overflow, and `min_ms <= d <= max_ms`; in particular the
delay drawn by `Play_Game` is always in [1000, 3000]. -/
theorem C8_Generate_Random_Delay_in_range (min_ms max_ms : Nat) (m : Machine)
    (hle : min_ms ≤ max_ms) (hmax : max_ms < U32)
    (hspan : (max_ms - min_ms + 1) % U32 ≠ 0) :
    (∃ d m1, Generate_Random_Delay min_ms max_ms m = some (d, m1) ∧
      min_ms ≤ d ∧ d ≤ max_ms ∧
      d = min_ms + m1.seed % (max_ms - min_ms + 1) ∧
      min_ms + m1.seed % (max_ms - min_ms + 1) < U32 ∧
      m1.seed = ((m.seed * 1103515245 + 12345) % U32) &&& 0x7FFFFFFF) ∧
    (∀ m0 : Machine, ∃ d m1,
      Generate_Random_Delay MIN_DELAY_MS MAX_DELAY_MS m0 = some (d, m1) ∧
      1000 ≤ d ∧ d ≤ 3000) := by
  have gen : ∀ (lo hi : Nat) (m0 : Machine), lo ≤ hi → hi < U32 →
      (hi - lo + 1) % U32 ≠ 0 →
      ∃ d m1, Generate_Random_Delay lo hi m0 = some (d, m1) ∧ lo ≤ d ∧ d ≤ hi ∧
        d = lo + m1.seed % (hi - lo + 1) ∧ lo + m1.seed % (hi - lo + 1) < U32 ∧
        m1.seed = ((m0.seed * 1103515245 + 12345) % U32) &&& 0x7FFFFFFF := by
    intro lo hi m0 h1 h2 h3
    have hsub : sub32 hi lo = hi - lo := by
      unfold sub32 U32 at *
      omega
    have hsmall : hi - lo + 1 < U32 := by
      unfold U32 at *
      omega
    have hrange : (sub32 hi lo + 1) % U32 = hi - lo + 1 := by
      rw [hsub]
      exact Nat.mod_eq_of_lt hsmall
    have hlt : ∀ s : Nat, s % (hi - lo + 1) < hi - lo + 1 := fun s =>
      Nat.mod_lt _ (Nat.succ_pos _)
    have hne : hi - lo + 1 ≠ 0 := Nat.succ_ne_zero _
    have hb := hlt (((m0.seed * 1103515245 + 12345) % U32) &&& 0x7FFFFFFF)
    have hd : (lo + (((m0.seed * 1103515245 + 12345) % U32) &&& 0x7FFFFFFF) % (hi - lo + 1)) % U32
        = lo + (((m0.seed * 1103515245 + 12345) % U32) &&& 0x7FFFFFFF) % (hi - lo + 1) :=
      Nat.mod_eq_of_lt (by omega)
    refine ⟨(lo + (((m0.seed * 1103515245 + 12345) % U32) &&& 0x7FFFFFFF) % (hi - lo + 1)) % U32,
      { m0 with seed := ((m0.seed * 1103515245 + 12345) % U32) &&& 0x7FFFFFFF },
      ?_, ?_, ?_, ?_, ?_, rfl⟩
    · simp only [Generate_Random_Delay, hrange, hne, if_false]
    · simp only [hd]; omega
    · simp only [hd]; omega
    · simp only [hd]
    · simp only []; omega
  refine ⟨gen min_ms max_ms m hle hmax hspan, fun m0 => ?_⟩
  obtain ⟨d, m1, h, h1, h2, -⟩ :=
    gen MIN_DELAY_MS MAX_DELAY_MS m0 (by decide) (by decide) (by decide)
  exact ⟨d, m1, h, h1, h2⟩

/-- Witness for C8: the first delay drawn after reset, with the seed 12345. -/
theorem C8_Generate_Random_Delay_in_range_witness :
    ∃ d m1, Generate_Random_Delay 1000 3000 Machine.init = some (d, m1) ∧
      1000 ≤ d ∧ d ≤ 3000 ∧
      d = 1000 + m1.seed % (3000 - 1000 + 1) ∧
      1000 + m1.seed % (3000 - 1000 + 1) < U32 ∧
      m1.seed = ((Machine.init.seed * 1103515245 + 12345) % U32) &&& 0x7FFFFFFF :=
  (C8_Generate_Random_Delay_in_range 1000 3000 Machine.init (by decide) (by decide)
    (by decide)).1

/-! ## C9: the capture latch -/

theorem land_SW1_of_latched (r im : Nat) : ((r ||| SW1) &&& im) &&& SW1 = im &&& SW1 := by
  apply Nat.eq_of_testBit_eq
  intro i
  have h16 : SW1 = 2 ^ 4 := rfl
  simp only [Nat.testBit_and, Nat.testBit_or, h16, Nat.testBit_two_pow]
  by_cases h : 4 = i <;> simp [h]

theorem land_not32_SW1 (im : Nat) : (im &&& not32 0x10) &&& SW1 = 0 := by
  rw [Nat.land_assoc]
  have h : not32 0x10 &&& SW1 = 0 := by decide
  rw [h, Nat.and_zero]

/-- No foreground step of `Play_Game` assigns `reaction_time`. -/
theorem Play_Game_step_reaction_time (p : Play) :
    (Play_Game_step p).m.reaction_time = p.m.reaction_time := by
  rcases p with ⟨m, loc, gr, cr, tr, i, j, rd, ta, sw, ct, rt, out, wr, oob⟩
  cases loc
  case random =>
    simp only [Play_Game_step]
    split
    · rfl
    · rename_i d m1 h
      rw [Generate_Random_Delay_machine _ _ _ _ _ h]
  all_goals
    simp only [Play_Game_step] <;> (try split_ifs) <;>
    simp [Play.write_result, LED_On, LED_Off, Clear_Button_Flag, Set_Start_Time,
      GPIO_Enable_Interrupt, GPIO_Disable_Interrupt, SysTick_Delay_enter]

/-- C9, as stated, fails.  In round 0 SW1 is pressed 150 ms after the LED is
lit: the flag is set and `reaction_time` is 150.  One timer interrupt later,
with the flag still set and the interrupt still enabled, a second falling
edge runs `GPIOF_Handler` again and `reaction_time` becomes 151. -/
theorem C9_second_edge_counterexample :
    (Play.reset.run Ev.first_press).m.button_flag = 1 ∧
    (Play.reset.run Ev.first_press).m.reaction_time = 150 ∧
    ((Play.reset.run Ev.first_press).event Ev.tick).m.button_flag = 1 ∧
    ((Play.reset.run Ev.first_press).event Ev.tick).m.reaction_time = 150 ∧
    (((Play.reset.run Ev.first_press).event Ev.tick).event Ev.edge).m.reaction_time
      = 151 := by
  simp only [Ev.first_press, Ev.to_wait_loop, Ev.to_stimulus, Ev.delay, Play.run_append,
    Play.run_ticks]
  decide

/-- C9, amended.  In every state, whether or not `button_flag` is set: a timer
interrupt and every foreground step of `Play_Game` (the reset of the flag
included) leave `reaction_time` unchanged, and so does a falling edge on PF4
while the capture is not armed; a falling edge while the capture is armed runs
`GPIOF_Handler`, which sets `button_flag` and overwrites `reaction_time` with
`systick_counter - start_time` modulo 2^32, also when the flag is already set.
`GPIO_Disable_Interrupt` disarms the capture, so the recorded value is frozen
from the disarming on and is that of the last edge before it. -/
theorem C9_reaction_time_steps (p : Play) (ev : Ev) :
    (ev ≠ Ev.edge ∨ capture_armed p.m = false →
      (p.event ev).m.reaction_time = p.m.reaction_time) ∧
    (ev = Ev.edge → capture_armed p.m = true →
      (p.event ev).m.reaction_time = sub32 p.m.systick_counter p.m.start_time ∧
      (p.event ev).m.button_flag = 1) ∧
    capture_armed (GPIO_Disable_Interrupt p.m) = false := by
  refine ⟨?_, ?_, ?_⟩
  · intro h
    cases ev with
    | tick => rfl
    | fg => exact Play_Game_step_reaction_time p
    | edge =>
      have harm : capture_armed p.m = false := by
        rcases h with h | h
        · exact absurd rfl h
        · exact h
      simp only [capture_armed, decide_eq_false_iff_not] at harm
      simp only [Play.event, button_edge, land_SW1_of_latched]
      rw [if_neg harm]
  · intro hev harm
    subst hev
    simp only [capture_armed, decide_eq_true_eq] at harm
    simp only [Play.event, button_edge, land_SW1_of_latched]
    rw [if_pos harm]
    simp only [GPIOF_Handler, land_SW1_of_latched]
    rw [if_pos harm.1]
    exact ⟨rfl, rfl⟩
  · simp [capture_armed, GPIO_Disable_Interrupt, land_not32_SW1]

/-- Instance of C9 (amended): in round 0, one tick after the press at 150 ms the
capture is still armed, and a second edge stores the counter minus the start
time and leaves the flag set. -/
theorem C9_reaction_time_steps_witness :
    capture_armed ((Play.reset.run Ev.first_press).event Ev.tick).m = true ∧
    (((Play.reset.run Ev.first_press).event Ev.tick).event Ev.edge).m.reaction_time =
      sub32 ((Play.reset.run Ev.first_press).event Ev.tick).m.systick_counter
        ((Play.reset.run Ev.first_press).event Ev.tick).m.start_time ∧
    (((Play.reset.run Ev.first_press).event Ev.tick).event Ev.edge).m.button_flag = 1 := by
  have harm : capture_armed ((Play.reset.run Ev.first_press).event Ev.tick).m = true := by
    simp only [Ev.first_press, Ev.to_wait_loop, Ev.to_stimulus, Ev.delay, Play.run_append,
      Play.run_ticks]
    decide
  exact ⟨harm, (C9_reaction_time_steps _ Ev.edge).2.1 rfl harm⟩

/-! ## C10: the tick counter -/

/-- A foreground step of `Play_Game` changes `systick_counter` only at the
entry of `SysTick_Delay`, where it clears it. -/
theorem Play_Game_step_counter (p : Play) :
    (Play_Game_step p).m.systick_counter =
      if p.loc.is_delay then 0 else p.m.systick_counter := by
  rcases p with ⟨m, loc, gr, cr, tr, i, j, rd, ta, sw, ct, rt, out, wr, oob⟩
  cases loc
  case random =>
    simp only [Play_Game_step, Loc.is_delay, Bool.false_eq_true, if_false]
    split
    · rfl
    · rename_i d m1 h
      rw [Generate_Random_Delay_machine _ _ _ _ _ h]
  all_goals
    simp only [Play_Game_step, Loc.is_delay, Bool.false_eq_true, if_false, if_true] <;>
    first
      | rfl
      | (split_ifs <;> rfl)

theorem button_edge_counter (m : Machine) :
    (button_edge m).systick_counter = m.systick_counter := by
  simp only [button_edge, GPIOF_Handler]
  split_ifs <;> rfl

theorem Play.event_counter (p : Play) (ev : Ev) :
    (p.event ev).m.systick_counter =
      (match ev with
       | Ev.tick => (p.m.systick_counter + 1) % U32
       | Ev.edge => p.m.systick_counter
       | Ev.fg => if p.loc.is_delay then 0 else p.m.systick_counter) := by
  cases ev with
  | tick => rfl
  | edge => exact button_edge_counter p.m
  | fg => exact Play_Game_step_counter p

/-- Over a run in which the foreground never enters `SysTick_Delay`, the
counter advances by the number of timer interrupts, modulo 2^32. -/
theorem Play.run_counter (evs : List Ev) : ∀ p : Play, p.enters_delay evs = false →
    (p.run evs).m.systick_counter = (p.m.advance (evs.count Ev.tick)).systick_counter := by
  induction evs with
  | nil => intro p _; simp [Play.run, Machine.advance]
  | cons ev rest ih =>
    intro p h
    simp only [Play.enters_delay, Bool.or_eq_false_iff, Bool.and_eq_false_imp,
      decide_eq_true_eq] at h
    rw [Play.run_cons, ih _ h.2]
    cases ev with
    | tick =>
      have hev : (p.event Ev.tick).m = SysTick_Handler p.m := rfl
      rw [hev, Machine.advance_succ, List.count_cons_self]
    | edge =>
      have hc : List.count Ev.tick (Ev.edge :: rest) = List.count Ev.tick rest :=
        List.count_cons_of_ne (by decide) _
      have hev : (p.event Ev.edge).m.systick_counter = p.m.systick_counter :=
        button_edge_counter p.m
      simp only [Machine.advance]
      rw [hc, hev]
    | fg =>
      have hc : List.count Ev.tick (Ev.fg :: rest) = List.count Ev.tick rest :=
        List.count_cons_of_ne (by decide) _
      have hd : p.loc.is_delay = false := h.1 rfl
      have hev : (p.event Ev.fg).m.systick_counter = p.m.systick_counter := by
        have := Play_Game_step_counter p
        simp only [hd, Bool.false_eq_true, if_false] at this
        exact this
      simp only [Machine.advance]
      rw [hc, hev]

/-- The busy-wait loop of `SysTick_Delay` ends, with the counter equal to the
delay, once enough timer interrupts have arrived. -/
theorem SysTick_Delay_spin_returns (delay_ms : Nat) (hd : delay_ms < U32) :
    ∀ (fuel : Nat) (m : Machine), m.systick_counter ≤ delay_ms →
      delay_ms - m.systick_counter ≤ fuel →
      SysTick_Delay_spin delay_ms fuel m = some { m with systick_counter := delay_ms } := by
  intro fuel
  induction fuel with
  | zero =>
    intro m h1 h2
    have heq : m.systick_counter = delay_ms := by omega
    simp [SysTick_Delay_spin, SysTick_Delay_waiting, ← heq]
  | succ k ih =>
    intro m h1 h2
    by_cases hlt : m.systick_counter < delay_ms
    · have hstep : (SysTick_Handler m).systick_counter = m.systick_counter + 1 := by
        simp only [SysTick_Handler]
        exact Nat.mod_eq_of_lt (by omega)
      rw [SysTick_Delay_spin]
      simp only [SysTick_Delay_waiting, hlt, decide_True, if_true]
      rw [ih (SysTick_Handler m) (by omega) (by omega)]
      simp [SysTick_Handler]
    · have heq : m.systick_counter = delay_ms := by omega
      simp [SysTick_Delay_spin, SysTick_Delay_waiting, ← heq]

/-- C10, as stated, fails.  `SysTick_Delay_Milliseconds(500)` called with the
counter at 7000 returns with the counter at 500: a foreground operation of the
tick source has changed the counter.  In the run of round 0 with a timeout
and a late press, the read of line 198 returns 2492 and the read of the
handler, 2101 timer interrupts later, returns 100.  And one timer interrupt
at the counter value 4294967295 makes the next read 0, a smaller value. -/
theorem C10_counter_counterexample :
    SysTick_Delay_Milliseconds 500 500 { Machine.init with systick_counter := 7000 } =
      some { Machine.init with systick_counter := 500 } ∧
    (Play.reset.run Ev.until_timeout).start_wait = 2492 ∧
    (Play.reset.run (Ev.until_timeout ++ [Ev.fg, Ev.fg] ++
      List.replicate 100 Ev.tick)).m.systick_counter = 100 ∧
    (SysTick_Handler { Machine.init with systick_counter := 4294967295 }).systick_counter
      = 0 := by
  have h := SysTick_Delay_spin_returns 500 (by decide) 500
    (SysTick_Delay_enter { Machine.init with systick_counter := 7000 }) (Nat.zero_le _)
    (Nat.sub_le _ _)
  refine ⟨h, ?_⟩
  simp only [Ev.until_timeout, Ev.to_wait_loop, Ev.to_stimulus, Ev.delay, Play.run_append,
    Play.run_ticks]
  decide

/-- C10, amended.  `SysTick_Handler` adds exactly 1 modulo 2^32 to
`systick_counter`; a button edge, `SysTick_Get_Current_Time`,
`Generate_Random_Delay` and every foreground step of `Play_Game` other than
the entry of `SysTick_Delay` leave it unchanged; `SysTick_Delay` and
`SysTick_Delay_Milliseconds` clear it on entry and return, once `delay_ms`
timer interrupts have arrived, with the counter equal to `delay_ms`.  Over a
run in which the foreground does not enter `SysTick_Delay` and fewer than 2^32
timer interrupts arrive, the 32-bit difference of the counter after and before
is the number of timer interrupts, and the counter has not decreased when it
has not wrapped. -/
theorem C10_tick_counter (p : Play) :
    (∀ ev, (p.event ev).m.systick_counter =
      (match ev with
       | Ev.tick => (p.m.systick_counter + 1) % U32
       | Ev.edge => p.m.systick_counter
       | Ev.fg => if p.loc.is_delay then 0 else p.m.systick_counter)) ∧
    (SysTick_Handler p.m).systick_counter = (p.m.systick_counter + 1) % U32 ∧
    SysTick_Get_Current_Time p.m = p.m.systick_counter ∧
    (∀ lo hi d m1, Generate_Random_Delay lo hi p.m = some (d, m1) →
      m1.systick_counter = p.m.systick_counter) ∧
    (∀ delay_ms fuel, delay_ms < U32 → delay_ms ≤ fuel →
      SysTick_Delay delay_ms fuel p.m = some { p.m with systick_counter := delay_ms } ∧
      SysTick_Delay_Milliseconds delay_ms fuel p.m =
        some { p.m with systick_counter := delay_ms }) ∧
    (∀ evs, p.enters_delay evs = false → p.m.systick_counter < U32 →
      evs.count Ev.tick < U32 →
      (p.run evs).m.systick_counter = (p.m.systick_counter + evs.count Ev.tick) % U32 ∧
      sub32 (p.run evs).m.systick_counter p.m.systick_counter = evs.count Ev.tick ∧
      (p.m.systick_counter + evs.count Ev.tick < U32 →
        p.m.systick_counter ≤ (p.run evs).m.systick_counter)) := by
  refine ⟨Play.event_counter p, rfl, rfl, ?_, ?_, ?_⟩
  · intro lo hi d m1 h
    rw [Generate_Random_Delay_machine _ _ _ _ _ h]
  · intro delay_ms fuel hd hf
    have h := SysTick_Delay_spin_returns delay_ms hd fuel (SysTick_Delay_enter p.m)
      (Nat.zero_le _) (by simp [SysTick_Delay_enter]; omega)
    exact ⟨h, h⟩
  · intro evs hno hc hn
    have hrun := Play.run_counter evs p hno
    have hval : (p.run evs).m.systick_counter =
        (p.m.systick_counter + evs.count Ev.tick) % U32 := by
      rw [hrun]
      simp only [Machine.advance]
      split_ifs with h0
      · rw [h0, Nat.add_zero, Nat.mod_eq_of_lt hc]
      · rfl
    refine ⟨hval, ?_, ?_⟩
    · rw [hval]
      unfold sub32 U32 at *
      omega
    · intro hsmall
      rw [hval, Nat.mod_eq_of_lt hsmall]
      omega

/-- Instance of C10 (amended): in the wait loop of round 0, entered with the
counter at 2492, three timer interrupts, a press and two passes of the
foreground advance the counter by 3. -/
theorem C10_tick_counter_witness :
    (Play.reset.run Ev.to_wait_loop).m.systick_counter = 2492 ∧
    ((Play.reset.run Ev.to_wait_loop).run
      [Ev.tick, Ev.tick, Ev.fg, Ev.tick, Ev.edge, Ev.fg]).m.systick_counter =
      ((Play.reset.run Ev.to_wait_loop).m.systick_counter +
        [Ev.tick, Ev.tick, Ev.fg, Ev.tick, Ev.edge, Ev.fg].count Ev.tick) % U32 ∧
    sub32 ((Play.reset.run Ev.to_wait_loop).run
        [Ev.tick, Ev.tick, Ev.fg, Ev.tick, Ev.edge, Ev.fg]).m.systick_counter
      (Play.reset.run Ev.to_wait_loop).m.systick_counter =
      [Ev.tick, Ev.tick, Ev.fg, Ev.tick, Ev.edge, Ev.fg].count Ev.tick := by
  have hc : (Play.reset.run Ev.to_wait_loop).m.systick_counter = 2492 := by
    simp only [Ev.to_wait_loop, Ev.to_stimulus, Ev.delay, Play.run_append, Play.run_ticks]
    decide
  have hno : (Play.reset.run Ev.to_wait_loop).enters_delay
      [Ev.tick, Ev.tick, Ev.fg, Ev.tick, Ev.edge, Ev.fg] = false := by
    simp only [Ev.to_wait_loop, Ev.to_stimulus, Ev.delay, Play.run_append, Play.run_ticks]
    decide
  have h := (C10_tick_counter (Play.reset.run Ev.to_wait_loop)).2.2.2.2.2
    [Ev.tick, Ev.tick, Ev.fg, Ev.tick, Ev.edge, Ev.fg] hno (by rw [hc]; decide) (by decide)
  exact ⟨hc, h.1, h.2.1⟩

/-! ## C11: the round count and the indices of `game_results` -/

theorem Play.write_result_bounded (p : Play) (r : RoundResult) (hb : p.bounded)
    (hin : p.loc.in_round = true) :
    (p.write_result r).total_rounds = p.total_rounds ∧
    (p.write_result r).current_round = p.current_round ∧
    (p.write_result r).i = p.i ∧
    (p.write_result r).game_results.length = MAX_ROUNDS ∧
    (p.write_result r).out_of_bounds = false ∧
    (∀ w ∈ (p.write_result r).writes, w.1 < MAX_ROUNDS) := by
  obtain ⟨h1, h2, h3, h4, h5, h6, h7⟩ := hb
  have hi : p.i < MAX_ROUNDS := Nat.lt_of_lt_of_le (h7 hin) h2
  refine ⟨rfl, rfl, rfl, ?_, ?_, ?_⟩
  · simp [Play.write_result, h4]
  · simp [Play.write_result, h5, hi]
  · intro w hw
    simp only [Play.write_result, List.mem_append, List.mem_singleton] at hw
    rcases hw with hw | hw
    · exact h6 w hw
    · rw [hw]; exact hi

/-- A foreground step of `Play_Game` keeps the bounds. -/
theorem Play_Game_step_bounded (p : Play) (hb : p.bounded) : (Play_Game_step p).bounded := by
  have hb0 := hb
  obtain ⟨h1, h2, h3, h4, h5, h6, h7⟩ := hb
  rcases p with ⟨m, loc, gr, cr, tr, i, j, rd, ta, sw, ct, rt, out, wr, oob⟩
  simp only at h1 h2 h3 h4 h5 h6 h7
  cases loc
  case random =>
    simp only [Play_Game_step]
    split
    · exact hb0
    · exact ⟨h1, h2, h3, h4, h5, h6, fun _ => h7 rfl⟩
  case timeout =>
    obtain ⟨w1, w2, w3, w4, w5, w6⟩ :=
      Play.write_result_bounded _ ⟨0, 0⟩ hb0 rfl
    simp only [Play_Game_step]
    exact ⟨h1, h2, h3, w4, w5, w6, fun _ => h7 rfl⟩
  case classify =>
    simp only [Play_Game_step]
    split_ifs
    · obtain ⟨w1, w2, w3, w4, w5, w6⟩ :=
        Play.write_result_bounded _ ⟨Get_Reaction_Time m, 0⟩ hb0 rfl
      exact ⟨h1, h2, h3, w4, w5, w6, fun _ => h7 rfl⟩
    · obtain ⟨w1, w2, w3, w4, w5, w6⟩ :=
        Play.write_result_bounded _ ⟨Get_Reaction_Time m, 1⟩ hb0 rfl
      exact ⟨h1, h2, h3, w4, w5, w6, fun _ => h7 rfl⟩
  all_goals
    simp only [Play_Game_step]
    try split_ifs with hif
    all_goals first
      | exact hb0
      | exact ⟨h1, h2, h3, h4, h5, h6, fun h => h7 h⟩
      | exact ⟨h1, h2, h3, h4, h5, h6, fun _ => h7 rfl⟩
      | exact ⟨h1, h2, h3, h4, h5, h6, fun _ => hif⟩
      | exact ⟨h1, h2, h3, h4, h5, h6, fun h => Bool.noConfusion h⟩
      | exact ⟨h1, h2, Nat.zero_le _, h4, h5, h6, fun h => Bool.noConfusion h⟩
      | exact ⟨h1, h2, h2, h4, h5, h6, fun h => Bool.noConfusion h⟩

theorem Play.event_bounded (p : Play) (ev : Ev) (hb : p.bounded) : (p.event ev).bounded := by
  cases ev with
  | tick => exact hb
  | edge => exact hb
  | fg => exact Play_Game_step_bounded p hb

/-- Every run of `Play_Game` keeps the bounds. -/
theorem Play.run_bounded (evs : List Ev) : ∀ p : Play, p.bounded → (p.run evs).bounded := by
  induction evs with
  | nil => intro p hb; exact hb
  | cons ev rest ih =>
    intro p hb
    rw [Play.run_cons]
    exact ih _ (Play.event_bounded p ev hb)

theorem Play.start_bounded (m : Machine) (s : Main) (hb : s.bounded) :
    (Play.start m s.game_results s.current_round s.total_rounds).bounded := by
  obtain ⟨h1, h2, h3, h4⟩ := hb
  exact ⟨h1, h2, h3, h4, rfl, fun w hw => absurd hw (List.not_mem_nil w),
    fun h => Bool.noConfusion h⟩

theorem Main.play_bounded (s : Main) (hb : s.bounded) : s.play.bounded :=
  Play.start_bounded s.m s hb

theorem Get_Number_Of_Rounds_bounded (input rest : List Nat) (c t : Nat) (out : List Out)
    (hc : 1 ≤ c ∧ c ≤ MAX_ROUNDS)
    (h : Get_Number_Of_Rounds input c = some (t, rest, out)) :
    1 ≤ t ∧ t ≤ MAX_ROUNDS := by
  unfold Get_Number_Of_Rounds at h
  split at h
  · exact absurd h (by simp)
  · rename_i rounds rest0 echo _
    simp only [Option.some.injEq, Prod.mk.injEq] at h
    obtain ⟨ht, -, -⟩ := h
    rw [← ht]
    unfold Get_Number_Of_Rounds_check
    split_ifs with hr
    · have h8 : rounds % U8 = rounds :=
        Nat.mod_eq_of_lt (by unfold MAX_ROUNDS at hr; unfold U8; omega)
      simp only [h8]
      exact hr
    · exact hc

/-- A pass through the loop of `main` keeps the bounds. -/
theorem main_pass_bounded (s s1 : Main) (evs : List Ev) (hb : s.bounded)
    (h : main_pass s evs = some s1) : s1.bounded := by
  have hb0 := hb
  obtain ⟨h1, h2, h3, h4⟩ := hb
  unfold main_pass at h
  split_ifs at h with hex
  split at h
  · exact absurd h (by simp)
  · rename_i choice rest hin
    simp only at h
    split_ifs at h with c1 c2 hdone c3 c4
    · split at h
      · exact absurd h (by simp)
      · rename_i t rest1 o hg
        simp only [Option.some.injEq] at h
        rw [← h]
        have ht := Get_Number_Of_Rounds_bounded _ _ _ _ _ ⟨h1, h2⟩ hg
        exact ⟨ht.1, ht.2, h3, h4⟩
    · split at h
      · exact absurd h (by simp)
      · simp only [Option.some.injEq] at h
        rw [← h]
        obtain ⟨p1, p2, p3, p4, -⟩ := Play.run_bounded evs _ (Main.play_bounded s hb0)
        exact ⟨p1, p2, p3, p4⟩
    · split at h
      · exact absurd h (by simp)
      · simp only [Option.some.injEq] at h
        rw [← h]
        exact hb0
    · simp only [Option.some.injEq] at h
      rw [← h]
      exact hb0
    · simp only [Option.some.injEq] at h
      rw [← h]
      exact hb0

/-- Every sequence of passes through the loop of `main` keeps the bounds. -/
theorem main_run_bounded (scheds : List (List Ev)) : ∀ s s1 : Main, s.bounded →
    main_run s scheds = some s1 → s1.bounded := by
  induction scheds with
  | nil =>
    intro s s1 hb h
    simp only [main_run, Option.some.injEq] at h
    rw [← h]
    exact hb
  | cons evs rest ih =>
    intro s s1 hb h
    rw [main_run] at h
    split at h
    · exact absurd h (by simp)
    · rename_i s2 hp
      exact ih s2 s1 (main_pass_bounded s s2 evs hb hp) h

/-- C11. In every state `s` that the loop of `main` reaches from the initial
state (`total_rounds = 5`, `current_round = 0`) under any characters typed by
the user and any events during the games, `1 <= total_rounds <= MAX_ROUNDS`
and `current_round <= MAX_ROUNDS`, and the same holds in every state of a run
of `Play_Game` called from `s`, whatever the state of the timer and of the
button.  Consequently every index at which `Display_Results` reads
`game_results` and every index at which `Play_Game` writes it is below
`MAX_ROUNDS`, the length of the array. -/
theorem C11_round_count_and_indices_in_bounds (input : List Nat)
    (scheds : List (List Ev)) (s : Main)
    (hrun : main_run (Main.init input) scheds = some s) :
    (1 ≤ s.total_rounds ∧ s.total_rounds ≤ MAX_ROUNDS ∧ s.current_round ≤ MAX_ROUNDS ∧
      s.game_results.length = MAX_ROUNDS) ∧
    (∀ i ∈ Display_Results_indices s.current_round, i < MAX_ROUNDS) ∧
    (∀ (m : Machine) (evs : List Ev),
      1 ≤ ((Play.start m s.game_results s.current_round s.total_rounds).run evs).total_rounds ∧
      ((Play.start m s.game_results s.current_round s.total_rounds).run evs).total_rounds
        ≤ MAX_ROUNDS ∧
      ((Play.start m s.game_results s.current_round s.total_rounds).run evs).current_round
        ≤ MAX_ROUNDS ∧
      ((Play.start m s.game_results s.current_round s.total_rounds).run evs).game_results.length
        = MAX_ROUNDS ∧
      ((Play.start m s.game_results s.current_round s.total_rounds).run evs).out_of_bounds
        = false ∧
      (∀ w ∈ ((Play.start m s.game_results s.current_round s.total_rounds).run evs).writes,
        w.1 < MAX_ROUNDS) ∧
      (∀ i ∈ Display_Results_indices
          ((Play.start m s.game_results s.current_round s.total_rounds).run evs).total_rounds,
        i < MAX_ROUNDS)) := by
  have hinit : (Main.init input).bounded := by
    refine ⟨?_, ?_, ?_, ?_⟩ <;> simp only [Main.init] <;> decide
  have hb := main_run_bounded scheds _ s hinit hrun
  refine ⟨hb, ?_, ?_⟩
  · intro i hi
    have hi1 : i < s.current_round := List.mem_range.mp hi
    exact Nat.lt_of_lt_of_le hi1 hb.2.2.1
  · intro m evs
    obtain ⟨p1, p2, p3, p4, p5, p6, -⟩ := Play.run_bounded evs _ (Play.start_bounded m s hb)
    refine ⟨p1, p2, p3, p4, p5, p6, ?_⟩
    intro i hi
    exact Nat.lt_of_lt_of_le (List.mem_range.mp hi) p2

/-- Witness for C11: the user sets one round, plays the game of one round with
a press after 250 ms, and views the results.  The loop of `main` reaches a
state with `total_rounds = 1` and `current_round = 1`, and in it the bounds
hold. -/
theorem C11_round_count_and_indices_in_bounds_witness :
    ∃ s, main_run (Main.init [49, 49, 13, 50, 107, 51, 107])
        [[], Ev.one_round_game, []] = some s ∧
      (s.total_rounds, s.current_round, s.game_results.head?) = (1, 1, some ⟨250, 1⟩) ∧
      (1 ≤ s.total_rounds ∧ s.total_rounds ≤ MAX_ROUNDS ∧ s.current_round ≤ MAX_ROUNDS ∧
        s.game_results.length = MAX_ROUNDS) ∧
      (∀ i ∈ Display_Results_indices s.current_round, i < MAX_ROUNDS) := by
  have hmap : (main_run (Main.init [49, 49, 13, 50, 107, 51, 107])
      [[], Ev.one_round_game, []]).map
        (fun s => (s.total_rounds, s.current_round, s.game_results.head?))
      = some (1, 1, some ⟨250, 1⟩) := by
    simp only [main_run, main_pass, Main.init, Main.play, Ev.one_round_game, Ev.press_at,
      Ev.to_next_round, Ev.to_wait_loop, Ev.to_stimulus, Ev.delay, Play.run_append,
      Play.run_ticks]
    decide
  cases hs : main_run (Main.init [49, 49, 13, 50, 107, 51, 107])
      [[], Ev.one_round_game, []] with
  | none =>
    rw [hs] at hmap
    exact absurd hmap (by simp)
  | some s =>
    rw [hs] at hmap
    simp only [Option.map_some', Option.some.injEq] at hmap
    have h := C11_round_count_and_indices_in_bounds _ _ s hs
    exact ⟨s, rfl, hmap, h.1, h.2.1⟩

/-! ## C12: disarming twice -/

theorem land_not32_self_lor (en b : Nat) : en &&& not32 (en ||| b) = 0 := by
  apply Nat.eq_of_testBit_eq
  intro i
  have h32 : U32 = 2 ^ 32 := rfl
  have hlt : (en ||| b) % 2 ^ 32 < 2 ^ 32 := Nat.mod_lt _ (by decide)
  have hrw : not32 (en ||| b) = 2 ^ 32 - ((en ||| b) % 2 ^ 32 + 1) := by
    unfold not32
    rw [h32]
    omega
  rw [hrw, Nat.testBit_and, Nat.testBit_two_pow_sub_succ hlt, Nat.testBit_mod_two_pow,
    Nat.testBit_or, Nat.zero_testBit]
  cases en.testBit i <;> simp

theorem land_not32_twice (x c : Nat) : (x &&& not32 c) &&& not32 c = x &&& not32 c := by
  rw [Nat.land_assoc, Nat.and_self]

/-- C12. For every state of the latch and of the interrupt-enable registers,
calling `GPIO_Disable_Interrupt` twice in a row yields the same state as
calling it once, and a call changes neither `button_flag` nor `reaction_time`
nor `start_time`, whether or not a capture occurred. -/
theorem C12_GPIO_Disable_Interrupt_idempotent (m : Machine) :
    GPIO_Disable_Interrupt (GPIO_Disable_Interrupt m) = GPIO_Disable_Interrupt m ∧
    (GPIO_Disable_Interrupt m).button_flag = m.button_flag ∧
    (GPIO_Disable_Interrupt m).reaction_time = m.reaction_time ∧
    (GPIO_Disable_Interrupt m).start_time = m.start_time := by
  refine ⟨?_, rfl, rfl, rfl⟩
  simp only [GPIO_Disable_Interrupt, land_not32_twice, land_not32_self_lor, Nat.zero_and]

end ReactionTimeGame
